import Mathlib

/-!
# Verification of the petcare-advisor pipeline core

Shallow embedding of the consensus/discrepancy logic
(`agents/collaborative_agent.py`), the triage PSHVM weighting
(`agents/triage_agent.py`), the pipeline orchestrator
(`agents/root_orchestrator.py`) and the report assembler
(`tools/report_builder.py`), together with proofs and refutations of the
specification's claims about them.

Python dictionaries are embedded as structures whose fields are `Option`s
(`none` = key absent), `dict.get(k, d)` becomes `Option.getD`, fixed lookup
tables become association lists queried with a get-with-default helper, and
Python's substring test `a in b` becomes `strContains b a`.  Numeric scores
are embedded as `Int` (the 0-5 urgency scale) and confidence values as `ℚ`.
The LLM collaborators are opaque: their parsed JSON output is an input of the
embedded function (`Option` of a result structure, `none` modelling a JSON
parse failure, which the Python code catches as `json.JSONDecodeError`).
-/

namespace PetcareAdvisor

/-- Whether `needle` is an initial segment of `hay` (on character lists). -/
def charsStartWith : List Char → List Char → Bool
  | [], _ => true
  | _ :: _, [] => false
  | n :: ns, h :: hs => n == h && charsStartWith ns hs

/-- Whether `needle` occurs contiguously inside `hay` (on character
lists). -/
def charsContain : List Char → List Char → Bool
  | [], needle => charsStartWith needle []
  | h :: t, needle => charsStartWith needle (h :: t) || charsContain t needle

/-- Python's substring containment `needle in hay` for strings. -/
def strContains (hay needle : String) : Bool :=
  charsContain hay.data needle.data

/-- `d.get(k, dflt)` on a Python dict embedded as an association list. -/
def dictGetD {α : Type} (d : List (String × α)) (k : String) (dflt : α) : α :=
  match d.lookup k with
  | some v => v
  | none => dflt

/-! ## Structured payloads (the `structured_data` dictionaries) -/

/-- Fields of the symptom-intake stage's `structured_data` that the triage
agent, collaborative agent and report builder read. -/
structure SymptomStructured where
  species : Option String := none
  breed : Option String := none
  age : Option Int := none
  sex : Option String := none
  weight : Option Int := none
  main_symptoms : Option (List String) := none
  onset_time : Option String := none
  duration : Option String := none
  severity_perception : Option String := none
  red_flags : Option (List String) := none
deriving Repr, DecidableEq

/-- Fields of the medical stage's `structured_data` that are read
downstream. `differential_diagnosis` entries are opaque to the core
(copied wholesale), so they are embedded as strings. -/
structure MedicalStructured where
  riskLevel : Option String := none
  differential_diagnosis : Option (List String) := none
deriving Repr, DecidableEq

/-- Fields of the triage stage's `structured_data` that are read
downstream. -/
structure TriageStructured where
  urgency_score : Option Int := none
  base_score : Option Int := none
  triage_level : Option String := none
  act_color : Option String := none
  justification : Option String := none
  risk_assessment : Option String := none
  time_sensitivity : Option Int := none
deriving Repr, DecidableEq

/-- Fields of the vision stage's `structured_data` that the report builder
reads. -/
structure VisionStructured where
  has_images : Option Bool := none
  visual_findings : Option (List String) := none
  wound_detected : Option Bool := none
  swelling_detected : Option Bool := none
  skin_issues_detected : Option Bool := none
  eye_issues_detected : Option Bool := none
deriving Repr, DecidableEq

/-- Fields of the careplan stage's `structured_data` that the report builder
reads. -/
structure CareplanStructured where
  home_care_instructions : Option (List String) := none
  things_to_avoid : Option (List String) := none
  when_to_see_vet : Option String := none
  emergency_indicators : Option (List String) := none
  monitoring_guidance : Option (List String) := none
  supportive_message : Option String := none
deriving Repr, DecidableEq

/-- A stage-output envelope `{"output_key": ..., "structured_data": {...}}`;
only the `structured_data` member is ever read by the core, and
`x.get("structured_data", {})` is `x.structured_data.getD {}`. -/
structure SymptomData where
  structured_data : Option SymptomStructured := none
deriving Repr, DecidableEq

/-- Medical stage envelope. -/
structure MedicalData where
  structured_data : Option MedicalStructured := none
deriving Repr, DecidableEq

/-- Triage stage envelope. -/
structure TriageData where
  structured_data : Option TriageStructured := none
deriving Repr, DecidableEq

/-- Vision stage envelope. -/
structure VisionData where
  structured_data : Option VisionStructured := none
deriving Repr, DecidableEq

/-- Careplan stage envelope. -/
structure CareplanData where
  structured_data : Option CareplanStructured := none
deriving Repr, DecidableEq

/-! ## Discrepancy detector (`collaborative_agent.detect_discrepancies`) -/

/-- Result dictionary of `detect_discrepancies`. -/
structure DiscrepancyAnalysis where
  has_discrepancies : Bool
  discrepancy_type : Option String
  medical_risk : String
  medical_triage_equivalent : String
  triage_level : String
  triage_score : Int
  needs_review : Bool
deriving Repr, DecidableEq

/-- The fixed `risk_mapping` table of `detect_discrepancies` (note the
capitalised key `"Emergency"`, exactly as in the source). -/
def risk_mapping : List (String × String) :=
  [("low", "LOW"), ("medium", "MODERATE"), ("high", "HIGH"),
   ("Emergency", "EMERGENCY")]

/-- `detect_discrepancies(medical_data, triage_data)` from
`agents/collaborative_agent.py`: compares the medical risk label against
the triage level, flags a discrepancy, classifies its direction, and
computes `needs_review`. -/
def detect_discrepancies (medical_data : MedicalData)
    (triage_data : TriageData) : DiscrepancyAnalysis :=
  let medical_structured := medical_data.structured_data.getD {}
  let triage_structured := triage_data.structured_data.getD {}
  let medical_risk := medical_structured.riskLevel.getD "medium"
  let triage_level := triage_structured.triage_level.getD "MODERATE"
  let triage_score := triage_structured.urgency_score.getD 2
  let medical_triage_equivalent := dictGetD risk_mapping medical_risk "MODERATE"
  let has_discrepancy := medical_triage_equivalent != triage_level
  let discrepancy_type : Option String :=
    if medical_triage_equivalent != triage_level then
      if (medical_triage_equivalent == "EMERGENCY" && triage_level != "EMERGENCY")
          || (medical_triage_equivalent == "HIGH"
              && ["LOW", "MODERATE"].contains triage_level) then
        some "medical_higher"
      else if (triage_level == "EMERGENCY" && medical_triage_equivalent != "EMERGENCY")
          || (triage_level == "HIGH"
              && ["LOW", "MODERATE"].contains medical_triage_equivalent) then
        some "triage_higher"
      else
        some "moderate_mismatch"
    else none
  { has_discrepancies := has_discrepancy
    discrepancy_type := discrepancy_type
    medical_risk := medical_risk
    medical_triage_equivalent := medical_triage_equivalent
    triage_level := triage_level
    triage_score := triage_score
    needs_review := has_discrepancy || triage_score ≥ 3 }

/-! ## Consensus resolver (`collaborative_agent._collaborative_agent_function`)

The external reviewer LLM is opaque: its parsed JSON output is an input of
the embedded function (`some r` when `json.loads` succeeds, `none` for the
`json.JSONDecodeError` fallback). -/

/-- The reviewer's parsed JSON recommendation (all keys optional, read with
`dict.get`). -/
structure ReviewResult where
  agreement_with_medical : Option Bool := none
  recommended_risk_level : Option String := none
  recommended_triage_score : Option Int := none
  recommended_triage_level : Option String := none
  confidence_level : Option String := none
deriving Repr, DecidableEq

/-- The `consensus` dictionary built by the collaborative agent.  The fast
path omits the `final_triage_level` and `reviewer_model` keys and the
fallback omits `reviewer_model`; omitted keys are `none`. -/
structure Consensus where
  consensus_reached : Bool
  final_risk_level : String
  final_triage_score : Int
  final_triage_level : Option String
  confidence_score : ℚ
  reviewer_model : Option String
deriving Repr, DecidableEq

/-- The `structured_data` of the collaborative agent's return value. -/
structure CollaborativeResult where
  discrepancy_analysis : DiscrepancyAnalysis
  review_result : Option ReviewResult
  consensus : Consensus
deriving Repr, DecidableEq

/-- The fixed `risk_hierarchy` table used by the safety-escalation branch
(again with the capitalised key `"Emergency"`). -/
def risk_hierarchy : List (String × Int) :=
  [("low", 1), ("medium", 2), ("high", 3), ("Emergency", 4)]

/-- `_collaborative_agent_function(symptom_data, medical_data, triage_data)`
from `agents/collaborative_agent.py`, with the reviewer LLM's parsed output
passed in explicitly (`none` = JSON parse failure) and the chosen reviewer
model name passed as a string.  `symptom_data` only feeds the reviewer's
prompt text, so it does not influence the returned structure. -/
def collaborative_agent_function (symptom_data : SymptomData)
    (medical_data : MedicalData) (triage_data : TriageData)
    (reviewer_output : Option ReviewResult) (model_name : String) :
    CollaborativeResult :=
  let discrepancy_analysis := detect_discrepancies medical_data triage_data
  if !discrepancy_analysis.needs_review then
    { discrepancy_analysis := discrepancy_analysis
      review_result := none
      consensus :=
        { consensus_reached := true
          final_risk_level :=
            (medical_data.structured_data.getD {}).riskLevel.getD "medium"
          final_triage_score :=
            (triage_data.structured_data.getD {}).urgency_score.getD 2
          final_triage_level := none
          confidence_score := 0.8
          reviewer_model := none } }
  else
    let medical_structured := medical_data.structured_data.getD {}
    let triage_structured := triage_data.structured_data.getD {}
    match reviewer_output with
    | some review_result =>
      let medical_risk := medical_structured.riskLevel.getD "medium"
      let triage_score := triage_structured.urgency_score.getD 2
      let final_risk0 := review_result.recommended_risk_level.getD medical_risk
      let final_score0 := review_result.recommended_triage_score.getD triage_score
      let final_risk :=
        if discrepancy_analysis.has_discrepancies then
          let current_risk_level := dictGetD risk_hierarchy final_risk0 2
          let medical_risk_level := dictGetD risk_hierarchy medical_risk 2
          if medical_risk_level > current_risk_level then medical_risk
          else final_risk0
        else final_risk0
      let final_triage_score :=
        if discrepancy_analysis.has_discrepancies then
          max final_score0 triage_score
        else final_score0
      { discrepancy_analysis := discrepancy_analysis
        review_result := some review_result
        consensus :=
          { consensus_reached := !discrepancy_analysis.has_discrepancies
              || review_result.agreement_with_medical.getD false
            final_risk_level := final_risk
            final_triage_score := min 5 (max 0 final_triage_score)
            final_triage_level := some
              (review_result.recommended_triage_level.getD
                (triage_structured.triage_level.getD "MODERATE"))
            confidence_score :=
              if review_result.confidence_level == some "높음" then 0.9
              else if review_result.confidence_level == some "중간" then 0.75
              else 0.6
            reviewer_model := some model_name } }
    | none =>
      { discrepancy_analysis := discrepancy_analysis
        review_result := none
        consensus :=
          { consensus_reached := !discrepancy_analysis.has_discrepancies
            final_risk_level := medical_structured.riskLevel.getD "medium"
            final_triage_score := triage_structured.urgency_score.getD 2
            final_triage_level := some (triage_structured.triage_level.getD "MODERATE")
            confidence_score := 0.7
            reviewer_model := none } }

/-! ## Triage agent post-processing (`triage_agent._triage_agent_function`)

The deterministic part of the triage agent: the PSHVM weighting computed
from the symptom data before the LLM call, and the post-parse finalisation
(triage-level validation, re-application of the weighting with clamping,
ACT colour derivation) applied to the parsed model output. -/

/-- Result of the PSHVM weighting computation (lines 77-102 of
`triage_agent.py`). -/
structure PshvmWeighting where
  weight_adjustment : Int
  weight_reasons : List String
deriving Repr, DecidableEq

/-- The fixed `breed_vulnerabilities` table. -/
def breed_vulnerabilities : List (String × String) :=
  [("불독", "호흡기 취약"), ("퍼그", "호흡기 취약"),
   ("골든 리트리버", "고관절 취약"), ("래브라도", "고관절 취약")]

/-- The PSHVM weighting: duration-marker substring checks, senior-age rule
and breed-vulnerability rule, exactly as in `_triage_agent_function`. -/
def compute_pshvm_weighting (symptom_structured : SymptomStructured) :
    PshvmWeighting :=
  let age := symptom_structured.age.getD 0
  let breed := symptom_structured.breed.getD ""
  let duration := symptom_structured.duration.getD ""
  let w1 : Int × List String :=
    if strContains duration "7일" || strContains duration "일주일" then
      (2, ["증상 지속 7일 이상 (+2점)"])
    else if strContains duration "48시간" || strContains duration "2일" then
      (1, ["증상 지속 48시간 이상 (+1점)"])
    else (0, [])
  let w2 : Int × List String :=
    if age != 0 && age ≥ 7 then
      (1, ["노령견 (" ++ toString age ++ "세, +1점)"])
    else (0, [])
  let w3 : Int × List String :=
    if breed != ""
        && (breed_vulnerabilities.map Prod.fst).any (fun v => strContains breed v) then
      (1, ["품종 취약성 (" ++ breed ++ ", +1점)"])
    else (0, [])
  { weight_adjustment := w1.1 + w2.1 + w3.1
    weight_reasons := w1.2 ++ w2.2 ++ w3.2 }

/-- Modelled from the spec: the triage-level constants
`TRIAGE_INFO` .. `TRIAGE_EMERGENCY` live in `shared/constants.py`, which is
imported by the agents but is not present under `src/`; the spec's glossary
gives the five levels as INFO, LOW, MODERATE, HIGH, EMERGENCY. -/
def valid_triage_levels : List String :=
  ["INFO", "LOW", "MODERATE", "HIGH", "EMERGENCY"]

/-- The fixed red-flag tag set checked by the ACT-colour rule. -/
def act_red_flag_tags : List String :=
  ["bleeding", "seizure", "collapse", "difficulty_breathing", "unconscious"]

/-- The finalised triage `structured_data` fields set by the deterministic
post-processing. -/
structure TriageFinal where
  urgency_score : Int
  base_score : Int
  weight_adjustment : Int
  pshvm_factors : List String
  triage_level : String
  act_color : String
deriving Repr, DecidableEq

/-- The deterministic post-parse part of `_triage_agent_function`
(lines 180-202): validate the triage level, recompute the final score as
`min(5, max(0, base_score + weight_adjustment))` and derive the ACT colour
from the final score and the symptom red flags. -/
def triage_post_process (symptom_data : SymptomData)
    (model_output : TriageStructured) : TriageFinal :=
  let symptom_structured := symptom_data.structured_data.getD {}
  let weighting := compute_pshvm_weighting symptom_structured
  let weight_adjustment := weighting.weight_adjustment
  let triage_level :=
    match model_output.triage_level with
    | some lvl => if valid_triage_levels.contains lvl then lvl else "INFO"
    | none => "INFO"
  let base_score := model_output.base_score.getD (model_output.urgency_score.getD 0)
  let final_score := min 5 (max 0 (base_score + weight_adjustment))
  let act_color :=
    if final_score ≥ 4
        || act_red_flag_tags.any (fun flag =>
            (symptom_structured.red_flags.getD []).contains flag) then "Red"
    else if final_score ≥ 3 then "Orange"
    else if final_score ≥ 1 then "Yellow"
    else "Green"
  { urgency_score := final_score
    base_score := base_score
    weight_adjustment := weight_adjustment
    pshvm_factors := weighting.weight_reasons
    triage_level := triage_level
    act_color := act_color }

/-! ## Report assembler (`tools/report_builder.build_final_report`)

`get_iso_datetime()` reads the wall clock; the clock reading is passed in
explicitly as `generated_at`. -/

/-- `report["meta"]`. -/
structure ReportMeta where
  version : String := "v1"
  generated_at : String := ""
deriving Repr, DecidableEq

/-- `report["patient"]` (all fields read with no default: absent = `none`). -/
structure PatientInfo where
  species : Option String := none
  breed : Option String := none
  age : Option Int := none
  sex : Option String := none
  weight : Option Int := none
deriving Repr, DecidableEq

/-- `report["summary"]`. -/
structure ReportSummary where
  main_symptoms : List String := []
  onset_time : Option String := none
  duration : Option String := none
  severity_perception : Option String := none
deriving Repr, DecidableEq

/-- `report["triage"]`. -/
structure ReportTriage where
  urgency_score : Int := 0
  triage_level : String := "INFO"
  justification : String := ""
  risk_assessment : String := ""
  time_sensitivity : Option Int := none
deriving Repr, DecidableEq

/-- `report["care_plan"]`. -/
structure ReportCarePlan where
  home_care_instructions : List String := []
  things_to_avoid : List String := []
  when_to_see_vet : String := ""
  emergency_indicators : List String := []
  monitoring_guidance : List String := []
  supportive_message : String := ""
deriving Repr, DecidableEq

/-- `report["vision_analysis"]`, present only when the vision data's
`has_images` is truthy. -/
structure VisionAnalysisBlock where
  visual_findings : List String := []
  wound_detected : Bool := false
  swelling_detected : Bool := false
  skin_issues_detected : Bool := false
  eye_issues_detected : Bool := false
deriving Repr, DecidableEq

/-- The final report document. -/
structure Report where
  meta : ReportMeta := {}
  patient : PatientInfo := {}
  summary : ReportSummary := {}
  triage : ReportTriage := {}
  differential_diagnosis : List String := []
  care_plan : ReportCarePlan := {}
  red_flags : List String := []
  vision_analysis : Option VisionAnalysisBlock := none
deriving Repr, DecidableEq

/-- `build_final_report(symptom, vision, medical, triage, careplan)` from
`tools/report_builder.py`, with the `get_iso_datetime()` clock reading
passed in explicitly as `generated_at`. -/
def build_final_report (generated_at : String) (symptom : SymptomData)
    (vision : Option VisionData) (medical : MedicalData)
    (triage : TriageData) (careplan : CareplanData) : Report :=
  let symptom_data := symptom.structured_data.getD {}
  let vision_data :=
    match vision with
    | some v => v.structured_data.getD {}
    | none => ({} : VisionStructured)
  let medical_data := medical.structured_data.getD {}
  let triage_data := triage.structured_data.getD {}
  let careplan_data := careplan.structured_data.getD {}
  { meta := { version := "v1", generated_at := generated_at }
    patient :=
      { species := symptom_data.species
        breed := symptom_data.breed
        age := symptom_data.age
        sex := symptom_data.sex
        weight := symptom_data.weight }
    summary :=
      { main_symptoms := symptom_data.main_symptoms.getD []
        onset_time := symptom_data.onset_time
        duration := symptom_data.duration
        severity_perception := symptom_data.severity_perception }
    triage :=
      { urgency_score := triage_data.urgency_score.getD 0
        triage_level := triage_data.triage_level.getD "INFO"
        justification := triage_data.justification.getD ""
        risk_assessment := triage_data.risk_assessment.getD ""
        time_sensitivity := triage_data.time_sensitivity }
    differential_diagnosis := medical_data.differential_diagnosis.getD []
    care_plan :=
      { home_care_instructions := careplan_data.home_care_instructions.getD []
        things_to_avoid := careplan_data.things_to_avoid.getD []
        when_to_see_vet := careplan_data.when_to_see_vet.getD ""
        emergency_indicators := careplan_data.emergency_indicators.getD []
        monitoring_guidance := careplan_data.monitoring_guidance.getD []
        supportive_message := careplan_data.supportive_message.getD "" }
    red_flags := symptom_data.red_flags.getD []
    vision_analysis :=
      if vision_data.has_images.getD false then
        some
          { visual_findings := vision_data.visual_findings.getD []
            wound_detected := vision_data.wound_detected.getD false
            swelling_detected := vision_data.swelling_detected.getD false
            skin_issues_detected := vision_data.skin_issues_detected.getD false
            eye_issues_detected := vision_data.eye_issues_detected.getD false }
      else none }

/-! ## Pipeline orchestrator (`agents/root_orchestrator.root_orchestrator`) -/

/-- The accumulated `GraphState` threaded through the pipeline
(`shared/types.py`). -/
structure GraphState where
  symptom_data : Option SymptomData := none
  vision_data : Option VisionData := none
  medical_data : Option MedicalData := none
  triage_data : Option TriageData := none
  careplan_data : Option CareplanData := none
  final_report : Option Report := none
  image_refs : Option (List String) := none
  user_input : Option String := none
deriving Repr, DecidableEq

/-- The five external LLM-backed stage functions, abstracted as pure
collaborators with the argument shapes the orchestrator passes them. -/
structure StageTools where
  symptom_intake : String → SymptomData
  vision_analysis : Option SymptomData → List String → VisionData
  medical_analysis : Option SymptomData → Option VisionData → MedicalData
  triage_stage : Option SymptomData → Option MedicalData → TriageData
  careplan_stage :
    Option SymptomData → Option MedicalData → Option TriageData → CareplanData

/-- The slot-update member of an in-progress orchestrator response (the
dictionary key `symptom_data` / `vision_data` / ... and its value). -/
inductive StageSlot where
  | symptom_slot (d : SymptomData)
  | vision_slot (d : VisionData)
  | medical_slot (d : MedicalData)
  | triage_slot (d : TriageData)
  | careplan_slot (d : CareplanData)
deriving Repr, DecidableEq

/-- The orchestrator's return value: `{"status": "in_progress", "step": ...,
<slot>}` or `{"status": "complete", "report": ...}`. -/
inductive OrchestratorResult where
  | in_progress (step : String) (slot : StageSlot)
  | complete (report : Report)
deriving Repr, DecidableEq

/-- Truthiness of `safe_state.get("image_refs")`: present and a non-empty
list (`model_dump(exclude_none=True)` drops the key when the field is
`None`, and an empty list is falsy). -/
def image_refs_present (state : GraphState) : Bool :=
  match state.image_refs with
  | some (_ :: _) => true
  | _ => false

/-- `root_orchestrator(state, user_input)` from
`agents/root_orchestrator.py`: the if-chain over the state's result slots,
executing the first stage whose slot is `None` (the vision step only when
image refs are present) and returning its result; once every slot including
`final_report` is populated, the stored report is returned.  The stage
collaborators and the `get_iso_datetime()` clock reading used by the report
builder are passed in explicitly. -/
def root_orchestrator (tools : StageTools) (now : String)
    (state : GraphState) (user_input : String) : OrchestratorResult :=
  match state.symptom_data with
  | none =>
    .in_progress "symptom_intake" (.symptom_slot (tools.symptom_intake user_input))
  | some symptom =>
    if state.vision_data.isNone && image_refs_present state then
      .in_progress "vision_analysis"
        (.vision_slot (tools.vision_analysis state.symptom_data
          (state.image_refs.getD [])))
    else
      match state.medical_data with
      | none =>
        .in_progress "medical_analysis"
          (.medical_slot (tools.medical_analysis state.symptom_data
            state.vision_data))
      | some medical =>
        match state.triage_data with
        | none =>
          .in_progress "triage"
            (.triage_slot (tools.triage_stage state.symptom_data
              state.medical_data))
        | some triage =>
          match state.careplan_data with
          | none =>
            .in_progress "careplan"
              (.careplan_slot (tools.careplan_stage state.symptom_data
                state.medical_data state.triage_data))
          | some careplan =>
            match state.final_report with
            | none =>
              .complete (build_final_report now symptom state.vision_data
                medical triage careplan)
            | some report => .complete report

/-! Spec-side formulation of the transition rule, written from the spec's
words: scan the stages in the fixed order and execute the first whose
output slot is still unsatisfied, the vision stage counting as satisfied
whenever no image references were supplied. -/

/-- The six pipeline stages. -/
inductive Stage where
  | symptom | vision | medical | triage | careplan | report
deriving Repr, DecidableEq

/-- The fixed stage order of the spec's state machine. -/
def stage_order : List Stage :=
  [.symptom, .vision, .medical, .triage, .careplan, .report]

/-- Modelled from the spec: a stage is satisfied when its result slot is
present; the vision stage is additionally satisfied whenever the state
carries no image references, regardless of whether a vision output
exists. -/
def stage_satisfied (state : GraphState) : Stage → Bool
  | .symptom => state.symptom_data.isSome
  | .vision => state.vision_data.isSome || !image_refs_present state
  | .medical => state.medical_data.isSome
  | .triage => state.triage_data.isSome
  | .careplan => state.careplan_data.isSome
  | .report => state.final_report.isSome

/-- Modelled from the spec: the earliest unsatisfied stage in the fixed
order (`none` when every stage is satisfied). -/
def next_stage (state : GraphState) : Option Stage :=
  stage_order.find? (fun s => !stage_satisfied state s)

/-- Modelled from the spec: dispatch on the earliest unsatisfied stage,
executing only that stage's collaborator. -/
def spec_dispatch (tools : StageTools) (now : String)
    (state : GraphState) (user_input : String) : OrchestratorResult :=
  match next_stage state with
  | some .symptom =>
    .in_progress "symptom_intake" (.symptom_slot (tools.symptom_intake user_input))
  | some .vision =>
    .in_progress "vision_analysis"
      (.vision_slot (tools.vision_analysis state.symptom_data
        (state.image_refs.getD [])))
  | some .medical =>
    .in_progress "medical_analysis"
      (.medical_slot (tools.medical_analysis state.symptom_data
        state.vision_data))
  | some .triage =>
    .in_progress "triage"
      (.triage_slot (tools.triage_stage state.symptom_data state.medical_data))
  | some .careplan =>
    .in_progress "careplan"
      (.careplan_slot (tools.careplan_stage state.symptom_data
        state.medical_data state.triage_data))
  | some .report =>
    .complete (build_final_report now (state.symptom_data.getD {})
      state.vision_data (state.medical_data.getD {})
      (state.triage_data.getD {}) (state.careplan_data.getD {}))
  | none => .complete (state.final_report.getD {})

/-! ## Helper lemmas -/

/-- `dictGetD` on the empty dictionary returns the default. -/
lemma dictGetD_nil {α : Type} (k : String) (d : α) : dictGetD [] k d = d := rfl

/-- `dictGetD` on a cons cell compares the head key first. -/
lemma dictGetD_cons {α : Type} (a : String) (b : α) (rest : List (String × α))
    (k : String) (d : α) :
    dictGetD ((a, b) :: rest) k d = if a = k then b else dictGetD rest k d := by
  simp only [dictGetD, List.lookup]
  by_cases h : a = k
  · simp [h]
  · have hb : (k == a) = false := by simpa using Ne.symm h
    simp [hb, h, dictGetD]

/-- The `triage_score` field of the discrepancy analysis is the triage
data's `urgency_score` with default 2. -/
lemma detect_triage_score_eq (m : MedicalData) (t : TriageData) :
    (detect_discrepancies m t).triage_score =
      (t.structured_data.getD {}).urgency_score.getD 2 := rfl

/-- Unfolding of the `needs_review` field. -/
lemma detect_needs_review_eq (m : MedicalData) (t : TriageData) :
    (detect_discrepancies m t).needs_review =
      ((detect_discrepancies m t).has_discrepancies
        || decide ((t.structured_data.getD {}).urgency_score.getD 2 ≥ 3)) := rfl

/-- A detected discrepancy forces `needs_review`. -/
lemma needs_review_of_has (m : MedicalData) (t : TriageData)
    (h : (detect_discrepancies m t).has_discrepancies = true) :
    (detect_discrepancies m t).needs_review = true := by
  rw [detect_needs_review_eq, h, Bool.true_or]

/-- Characterisation of the `risk_mapping` lookup with default
`"MODERATE"` as an if-chain over the key. -/
lemma risk_mapping_eq (k : String) :
    dictGetD risk_mapping k "MODERATE" =
      (if k = "low" then "LOW" else if k = "medium" then "MODERATE"
       else if k = "high" then "HIGH"
       else if k = "Emergency" then "EMERGENCY"
       else "MODERATE") := by
  simp only [risk_mapping, dictGetD_cons, dictGetD_nil]
  by_cases h1 : k = "low" <;> by_cases h2 : k = "medium" <;>
    by_cases h3 : k = "high" <;> by_cases h4 : k = "Emergency" <;>
      simp [eq_comm, h1, h2, h3, h4]

/-- The ACT-colour if-chain with a boolean red-flag disjunct is the same
as with a propositional one. -/
lemma act_color_cond (s : Int) (b : Bool) :
    (if s ≥ 4 || b then "Red" else if s ≥ 3 then "Orange"
     else if s ≥ 1 then "Yellow" else "Green") =
      (if s ≥ 4 ∨ b = true then "Red" else if s ≥ 3 then "Orange"
       else if s ≥ 1 then "Yellow" else "Green") := by
  by_cases hs : s ≥ 4 <;> cases b <;> simp [hs]

/-- The claim's ordinal on risk labels (low=1, medium=2, high=3,
emergency=4; other labels rank lowest). -/
def claim_risk_ordinal (label : String) : Int :=
  if label = "low" then 1 else if label = "medium" then 2
  else if label = "high" then 3
  else if label = "Emergency" then 4
  else 0

/-- The claim's ordinal on triage levels, aligned with the risk ordinal
(LOW=1, MODERATE=2, HIGH=3, EMERGENCY=4; INFO and others rank lowest). -/
def claim_triage_level_ordinal (level : String) : Int :=
  if level = "LOW" then 1 else if level = "MODERATE" then 2
  else if level = "HIGH" then 3
  else if level = "EMERGENCY" then 4
  else 0

/-- Constant stage collaborators returning default-valued payloads, used to
instantiate the orchestrator on concrete states. -/
def tools_const : StageTools :=
  { symptom_intake := fun _ => {}
    vision_analysis := fun _ _ => {}
    medical_analysis := fun _ _ => {}
    triage_stage := fun _ _ => {}
    careplan_stage := fun _ _ _ => {} }

/-! ## Claims -/

/-- C1 counterexample: with medical risk "low", triage level "EMERGENCY"
(urgency score 0) a discrepancy is flagged, yet when the reviewer
recommends risk "low" (score 0) the reconciled risk level stays "low":
its ordinal 1 is strictly below max(medical ordinal 1, triage ordinal 4),
because the code's escalation only compares against the medical risk,
never against the triage level. -/
theorem C1_counterexample :
    let c := collaborative_agent_function {}
      { structured_data := some { riskLevel := some "low" } }
      { structured_data := some { triage_level := some "EMERGENCY",
                                  urgency_score := some 0 } }
      (some { agreement_with_medical := some true,
              recommended_risk_level := some "low",
              recommended_triage_score := some 0 })
      "GPT-4o"
    c.discrepancy_analysis.has_discrepancies = true ∧
      claim_risk_ordinal c.consensus.final_risk_level <
        max (claim_risk_ordinal "low") (claim_triage_level_ordinal "EMERGENCY") := by
  decide

/-- C1 (amended): when a discrepancy is flagged, the reconciled risk
level's ordinal under the code's `risk_hierarchy` (low=1, medium=2,
high=3, Emergency=4, anything else 2) is at least the medical risk's
ordinal — the escalation does not compare against the triage level — and
the final numeric score is at least the original triage score provided
that score does not exceed 5 (the clamp caps it at 5 otherwise).  This
holds both when the reviewer output parses and on the parse-failure
fallback. -/
theorem C1_escalation_amended (symptom_data : SymptomData)
    (medical_data : MedicalData) (triage_data : TriageData)
    (reviewer_output : Option ReviewResult) (model_name : String)
    (hdisc : (detect_discrepancies medical_data triage_data).has_discrepancies
      = true)
    (hscore : (triage_data.structured_data.getD {}).urgency_score.getD 2 ≤ 5) :
    dictGetD risk_hierarchy
        (collaborative_agent_function symptom_data medical_data triage_data
          reviewer_output model_name).consensus.final_risk_level 2 ≥
      dictGetD risk_hierarchy
        ((medical_data.structured_data.getD {}).riskLevel.getD "medium") 2 ∧
    (collaborative_agent_function symptom_data medical_data triage_data
        reviewer_output model_name).consensus.final_triage_score ≥
      (triage_data.structured_data.getD {}).urgency_score.getD 2 := by
  have hn := needs_review_of_has medical_data triage_data hdisc
  unfold collaborative_agent_function
  simp only [hn, Bool.not_true, Bool.false_eq_true, if_false]
  cases reviewer_output
  · exact ⟨le_refl _, le_refl _⟩
  · simp only [hdisc, if_pos]
    constructor
    · split
      · exact le_refl _
      · omega
    · omega

/-- C1 witness: the amended escalation invariant at a concrete input
(medical "Emergency" vs triage "LOW", reviewer recommending "low"). -/
theorem C1_escalation_amended_witness :
    dictGetD risk_hierarchy
        (collaborative_agent_function {}
          { structured_data := some { riskLevel := some "Emergency" } }
          { structured_data := some { triage_level := some "LOW",
                                      urgency_score := some 1 } }
          (some { recommended_risk_level := some "low",
                  recommended_triage_score := some 2 })
          "GPT-4o").consensus.final_risk_level 2 ≥
      dictGetD risk_hierarchy
        ((({ structured_data := some { riskLevel := some "Emergency" } }
            : MedicalData).structured_data.getD {}).riskLevel.getD "medium") 2 ∧
    (collaborative_agent_function {}
        { structured_data := some { riskLevel := some "Emergency" } }
        { structured_data := some { triage_level := some "LOW",
                                    urgency_score := some 1 } }
        (some { recommended_risk_level := some "low",
                recommended_triage_score := some 2 })
        "GPT-4o").consensus.final_triage_score ≥
      (({ structured_data := some { triage_level := some "LOW",
                                    urgency_score := some 1 } }
          : TriageData).structured_data.getD {}).urgency_score.getD 2 :=
  C1_escalation_amended {}
    { structured_data := some { riskLevel := some "Emergency" } }
    { structured_data := some { triage_level := some "LOW",
                                urgency_score := some 1 } }
    (some { recommended_risk_level := some "low",
            recommended_triage_score := some 2 })
    "GPT-4o" (by decide) (by decide)

/-- C2 counterexample: with a triage urgency score of -1 (and no
discrepancy) the fast path passes the raw score through unclamped, so the
final numeric score is -1, outside [0, 5]. -/
theorem C2_counterexample :
    (collaborative_agent_function {} {}
      { structured_data := some { urgency_score := some (-1) } }
      none "GPT-4o").consensus.final_triage_score < 0 := by
  decide

/-- C2 (amended): whenever the incoming triage urgency score (defaulting
to 2) already lies within [0, 5], the consensus final numeric score lies
within [0, 5] on the fast path, the full reviewer path and the
parse-failure fallback path alike; only the reviewer path clamps, the
other two return the input score unchanged. -/
theorem C2_score_bounds_amended (symptom_data : SymptomData)
    (medical_data : MedicalData) (triage_data : TriageData)
    (reviewer_output : Option ReviewResult) (model_name : String)
    (h0 : 0 ≤ (triage_data.structured_data.getD {}).urgency_score.getD 2)
    (h5 : (triage_data.structured_data.getD {}).urgency_score.getD 2 ≤ 5) :
    0 ≤ (collaborative_agent_function symptom_data medical_data triage_data
        reviewer_output model_name).consensus.final_triage_score ∧
      (collaborative_agent_function symptom_data medical_data triage_data
        reviewer_output model_name).consensus.final_triage_score ≤ 5 := by
  unfold collaborative_agent_function
  cases hn : (detect_discrepancies medical_data triage_data).needs_review
  · simp only [hn, Bool.not_false, if_pos]
    exact ⟨h0, h5⟩
  · cases reviewer_output
    · simp only [hn, Bool.not_true, Bool.false_eq_true, if_false]
      exact ⟨h0, h5⟩
    · simp only [hn, Bool.not_true, Bool.false_eq_true, if_false]
      constructor <;> omega

/-- C2 witness: the amended bounds at a concrete input (score defaulting
to 2, parse-failure fallback path). -/
theorem C2_score_bounds_amended_witness :
    0 ≤ (collaborative_agent_function {} {} {}
        none "GPT-4o").consensus.final_triage_score ∧
      (collaborative_agent_function {} {} {}
        none "GPT-4o").consensus.final_triage_score ≤ 5 :=
  C2_score_bounds_amended {} {} {} none "GPT-4o" (by decide) (by decide)

/-- C3 counterexample: for duration "8일째 지속", age 9, breed "불독",
the duration rule matches none of its substring markers ("7일",
"일주일", "48시간", "2일"), so the PSHVM weighting is +2 (age + breed),
not +4, and with base score 1 the final score is 3 with ACT colour
"Orange", not 5/"Red". -/
theorem C3_counterexample :
    (compute_pshvm_weighting
        { age := some 9, breed := some "불독",
          duration := some "8일째 지속" }).weight_adjustment ≠ 4 ∧
      (triage_post_process
        { structured_data :=
            some { age := some 9, breed := some "불독",
                   duration := some "8일째 지속" } }
        { base_score := some 1 }).urgency_score ≠ 5 ∧
      (triage_post_process
        { structured_data :=
            some { age := some 9, breed := some "불독",
                   duration := some "8일째 지속" } }
        { base_score := some 1 }).act_color ≠ "Red" := by
  decide

/-- C3 (amended): for the input duration "8일째 지속", age 9, breed
"불독", the PSHVM weighting is +1 (age ≥ 7) +1 (breed vulnerability)
= +2 — the duration contains none of the duration-rule markers, so that
rule contributes 0 — and with a base model score of 1 the final urgency
score is clamp(1+2, 0, 5) = 3 with ACT colour "Orange". -/
theorem C3_pshvm_example_amended :
    (compute_pshvm_weighting
        { age := some 9, breed := some "불독",
          duration := some "8일째 지속" }).weight_adjustment = 2 ∧
      (triage_post_process
        { structured_data :=
            some { age := some 9, breed := some "불독",
                   duration := some "8일째 지속" } }
        { base_score := some 1 }).urgency_score = 3 ∧
      (triage_post_process
        { structured_data :=
            some { age := some 9, breed := some "불독",
                   duration := some "8일째 지속" } }
        { base_score := some 1 }).act_color = "Orange" := by
  decide

/-- C4: one orchestrator invocation equals dispatching on the earliest
stage in the fixed order (symptom intake, vision, medical, triage,
careplan, final report) whose slot is unsatisfied — executing exactly
that stage's collaborator and no other — where the vision stage counts as
satisfied whenever the state carries no image references, regardless of
whether a vision output exists; when every stage is satisfied the stored
report is returned. -/
theorem C4_orchestrator_refines_spec (tools : StageTools) (now : String)
    (state : GraphState) (user_input : String) :
    root_orchestrator tools now state user_input =
      spec_dispatch tools now state user_input := by
  obtain ⟨sd, vd, md, td, cd, fr, ir, ui⟩ := state
  rcases ir with _ | ⟨_ | ⟨x, xs⟩⟩ <;>
    cases sd <;> cases vd <;> cases md <;> cases td <;> cases cd <;> cases fr <;>
      simp [root_orchestrator, spec_dispatch, next_stage, stage_order,
        stage_satisfied, image_refs_present, List.find?]

/-- C5: the discrepancy detector's `needs_review` flag is true exactly
when a discrepancy was detected or the triage numeric urgency score
(defaulting to 2) is at least 3. -/
theorem C5_needs_review (medical_data : MedicalData) (triage_data : TriageData) :
    (detect_discrepancies medical_data triage_data).needs_review = true ↔
      ((detect_discrepancies medical_data triage_data).has_discrepancies = true ∨
        (triage_data.structured_data.getD {}).urgency_score.getD 2 ≥ 3) := by
  rw [detect_needs_review_eq]
  simp

/-- C6 counterexample: the lowercase medical risk label "emergency" is not
a key of the code's `risk_mapping` (whose key is the capitalised
"Emergency"), so it falls to the unrecognised-label default "MODERATE"
instead of mapping to "EMERGENCY" as the claim states. -/
theorem C6_counterexample :
    (detect_discrepancies
        { structured_data := some { riskLevel := some "emergency" } }
        { structured_data := some { triage_level := some "EMERGENCY",
                                    urgency_score := some 0 } }).medical_triage_equivalent
        ≠ "EMERGENCY" ∧
      (detect_discrepancies
        { structured_data := some { riskLevel := some "emergency" } }
        { structured_data := some { triage_level := some "EMERGENCY",
                                    urgency_score := some 0 } }).medical_triage_equivalent
        = "MODERATE" := by
  decide

/-- C6 (amended): the discrepancy detector maps the medical risk labels
low/medium/high/Emergency (capital E, case-sensitively) to
LOW/MODERATE/HIGH/EMERGENCY by a fixed lookup; a missing medical risk
label defaults to "medium", a missing triage level defaults to
"MODERATE", and any unrecognised medical label — including the lowercase
"emergency" — maps to "MODERATE", so null values never propagate into the
comparison. -/
theorem C6_risk_mapping_amended (medical_data : MedicalData)
    (triage_data : TriageData) :
    (detect_discrepancies medical_data triage_data).medical_risk =
        (medical_data.structured_data.getD {}).riskLevel.getD "medium" ∧
      (detect_discrepancies medical_data triage_data).triage_level =
        (triage_data.structured_data.getD {}).triage_level.getD "MODERATE" ∧
      (detect_discrepancies medical_data triage_data).medical_triage_equivalent =
        (if (medical_data.structured_data.getD {}).riskLevel.getD "medium"
            = "low" then "LOW"
         else if (medical_data.structured_data.getD {}).riskLevel.getD "medium"
            = "medium" then "MODERATE"
         else if (medical_data.structured_data.getD {}).riskLevel.getD "medium"
            = "high" then "HIGH"
         else if (medical_data.structured_data.getD {}).riskLevel.getD "medium"
            = "Emergency" then "EMERGENCY"
         else "MODERATE") := by
  refine ⟨rfl, rfl, ?_⟩
  exact risk_mapping_eq
    ((medical_data.structured_data.getD {}).riskLevel.getD "medium")

/-- C7: the triage stage's final numeric urgency equals
clamp(base score from the model + total PSHVM weight, 0, 5), and the ACT
colour is derived from that final score and the red-flag set: "Red" when
the score is ≥ 4 or one of the fixed red-flag tags is present, else
"Orange" when ≥ 3, else "Yellow" when ≥ 1, else "Green". -/
theorem C7_triage_score_and_act_color (symptom_data : SymptomData)
    (model_output : TriageStructured) :
    (triage_post_process symptom_data model_output).urgency_score =
      min 5 (max 0 (model_output.base_score.getD
          (model_output.urgency_score.getD 0) +
        (compute_pshvm_weighting
          (symptom_data.structured_data.getD {})).weight_adjustment)) ∧
    (triage_post_process symptom_data model_output).act_color =
      (if (triage_post_process symptom_data model_output).urgency_score ≥ 4 ∨
          (act_red_flag_tags.any (fun flag =>
            ((symptom_data.structured_data.getD {}).red_flags.getD
              []).contains flag)) = true
        then "Red"
        else if (triage_post_process symptom_data model_output).urgency_score ≥ 3
          then "Orange"
        else if (triage_post_process symptom_data model_output).urgency_score ≥ 1
          then "Yellow"
        else "Green") := by
  refine ⟨rfl, ?_⟩
  have hc : (triage_post_process symptom_data model_output).act_color =
      (if (triage_post_process symptom_data model_output).urgency_score ≥ 4 ||
          (act_red_flag_tags.any (fun flag =>
            ((symptom_data.structured_data.getD {}).red_flags.getD
              []).contains flag))
        then "Red"
        else if (triage_post_process symptom_data model_output).urgency_score ≥ 3
          then "Orange"
        else if (triage_post_process symptom_data model_output).urgency_score ≥ 1
          then "Yellow"
        else "Green") := rfl
  rw [hc, act_color_cond]

/-- C8: on a reviewer JSON parse failure (reviewer output `none`, only
reachable when review was needed) the resolver returns the fallback
consensus built from the stage inputs: the medical risk label, the triage
score and level, `consensus_reached` equal to the negation of the
discrepancy flag, and a fixed confidence of 0.7; the fallback is a
returned value, not a raised error. -/
theorem C8_parse_failure_fallback (symptom_data : SymptomData)
    (medical_data : MedicalData) (triage_data : TriageData)
    (model_name : String)
    (h : (detect_discrepancies medical_data triage_data).needs_review = true) :
    collaborative_agent_function symptom_data medical_data triage_data
        none model_name =
      { discrepancy_analysis := detect_discrepancies medical_data triage_data
        review_result := none
        consensus :=
          { consensus_reached :=
              !(detect_discrepancies medical_data triage_data).has_discrepancies
            final_risk_level :=
              (medical_data.structured_data.getD {}).riskLevel.getD "medium"
            final_triage_score :=
              (triage_data.structured_data.getD {}).urgency_score.getD 2
            final_triage_level :=
              some ((triage_data.structured_data.getD {}).triage_level.getD
                "MODERATE")
            confidence_score := 0.7
            reviewer_model := none } } := by
  unfold collaborative_agent_function
  simp only [h, Bool.not_true, Bool.false_eq_true, if_false]

/-- C8 witness: the fallback consensus at a concrete input (triage score 3
forces review; no discrepancy). -/
theorem C8_parse_failure_fallback_witness :
    collaborative_agent_function {} {}
        { structured_data := some { urgency_score := some 3 } }
        none "GPT-4o" =
      { discrepancy_analysis := detect_discrepancies {}
          { structured_data := some { urgency_score := some 3 } }
        review_result := none
        consensus :=
          { consensus_reached :=
              !(detect_discrepancies {}
                { structured_data := some { urgency_score := some 3 } }).has_discrepancies
            final_risk_level :=
              (({} : MedicalData).structured_data.getD {}).riskLevel.getD "medium"
            final_triage_score :=
              (({ structured_data := some { urgency_score := some 3 } }
                  : TriageData).structured_data.getD {}).urgency_score.getD 2
            final_triage_level :=
              some ((({ structured_data := some { urgency_score := some 3 } }
                  : TriageData).structured_data.getD {}).triage_level.getD
                "MODERATE")
            confidence_score := 0.7
            reviewer_model := none } } :=
  C8_parse_failure_fallback {} {}
    { structured_data := some { urgency_score := some 3 } } "GPT-4o" (by decide)

/-- C9 counterexample: the report builder stamps the clock reading into
`meta.generated_at`, so two invocations of the orchestrator on the same
state (all five stage slots filled, final report absent) and the same raw
text, with identical stage collaborators, produce different results when
the clock readings differ — the entry point is not idempotent on
state+input alone. -/
theorem C9_counterexample :
    root_orchestrator tools_const "2024-01-01T00:00:00Z"
        { symptom_data := some {}, medical_data := some {},
          triage_data := some {}, careplan_data := some {} }
        "기침을 해요" ≠
      root_orchestrator tools_const "2024-01-02T00:00:00Z"
        { symptom_data := some {}, medical_data := some {},
          triage_data := some {}, careplan_data := some {} }
        "기침을 해요" := by
  decide

/-- C9 (amended): the orchestrator is idempotent given identical state,
input AND clock reading; moreover once the final-report slot is
populated the result no longer depends on the clock, and if additionally
every stage slot is satisfied, repeated invocations return the same
cached complete report. -/
theorem C9_idempotence_amended (tools : StageTools) (now1 now2 : String)
    (state : GraphState) (user_input : String) (r : Report)
    (h : state.final_report = some r) :
    root_orchestrator tools now1 state user_input =
        root_orchestrator tools now2 state user_input ∧
      (state.symptom_data.isSome = true →
        (state.vision_data.isSome || !image_refs_present state) = true →
        state.medical_data.isSome = true →
        state.triage_data.isSome = true →
        state.careplan_data.isSome = true →
        root_orchestrator tools now1 state user_input = .complete r) := by
  obtain ⟨sd, vd, md, td, cd, fr, ir, ui⟩ := state
  obtain rfl : fr = some r := h
  rcases ir with _ | ⟨_ | ⟨x, xs⟩⟩ <;>
    cases sd <;> cases vd <;> cases md <;> cases td <;> cases cd <;>
      simp [root_orchestrator, image_refs_present]

/-- C9 witness: the amended statement at a concrete fully-populated
state. -/
theorem C9_idempotence_amended_witness :
    root_orchestrator tools_const "2024-01-01T00:00:00Z"
          { symptom_data := some {}, medical_data := some {},
            triage_data := some {}, careplan_data := some {},
            final_report := some {} } "기침을 해요" =
        root_orchestrator tools_const "2024-01-02T00:00:00Z"
          { symptom_data := some {}, medical_data := some {},
            triage_data := some {}, careplan_data := some {},
            final_report := some {} } "기침을 해요" ∧
      root_orchestrator tools_const "2024-01-01T00:00:00Z"
          { symptom_data := some {}, medical_data := some {},
            triage_data := some {}, careplan_data := some {},
            final_report := some {} } "기침을 해요" = .complete {} :=
  ⟨(C9_idempotence_amended tools_const "2024-01-01T00:00:00Z"
      "2024-01-02T00:00:00Z"
      { symptom_data := some {}, medical_data := some {},
        triage_data := some {}, careplan_data := some {},
        final_report := some {} } "기침을 해요" {} rfl).1,
   (C9_idempotence_amended tools_const "2024-01-01T00:00:00Z"
      "2024-01-02T00:00:00Z"
      { symptom_data := some {}, medical_data := some {},
        triage_data := some {}, careplan_data := some {},
        final_report := some {} } "기침을 해요" {} rfl).2
     (by decide) (by decide) (by decide) (by decide) (by decide)⟩

/-- C10 counterexample: a supplied vision output whose `has_images` field
is false yields a report with no vision-analysis block, so the block's
presence is not equivalent to the vision stage having run — it is gated on
the `has_images` flag. -/
theorem C10_counterexample :
    (build_final_report "2024-01-01T00:00:00Z" {}
        (some { structured_data := some { has_images := some false } })
        {} {} {}).vision_analysis = none := by
  decide

/-- C10 (amended): the report assembler copies the stage outputs' field
values unchanged into the corresponding report sections (defaulting
absent fields to empty values); the vision-findings block is present if
and only if a vision output is supplied AND its `has_images` flag is
truthy — in particular, when no vision output is supplied the vision
section is omitted entirely. -/
theorem C10_report_round_trip_amended (generated_at : String)
    (symptom : SymptomData) (vision : Option VisionData)
    (medical : MedicalData) (triage : TriageData) (careplan : CareplanData) :
    let r := build_final_report generated_at symptom vision medical triage
      careplan
    let sd := symptom.structured_data.getD {}
    let vd := match vision with
      | some v => v.structured_data.getD {}
      | none => ({} : VisionStructured)
    let td := triage.structured_data.getD {}
    let cd := careplan.structured_data.getD {}
    r.meta = { version := "v1", generated_at := generated_at } ∧
      r.patient =
        { species := sd.species
          breed := sd.breed
          age := sd.age
          sex := sd.sex
          weight := sd.weight } ∧
      r.summary =
        { main_symptoms := sd.main_symptoms.getD []
          onset_time := sd.onset_time
          duration := sd.duration
          severity_perception := sd.severity_perception } ∧
      r.triage =
        { urgency_score := td.urgency_score.getD 0
          triage_level := td.triage_level.getD "INFO"
          justification := td.justification.getD ""
          risk_assessment := td.risk_assessment.getD ""
          time_sensitivity := td.time_sensitivity } ∧
      r.differential_diagnosis =
        (medical.structured_data.getD {}).differential_diagnosis.getD [] ∧
      r.care_plan =
        { home_care_instructions := cd.home_care_instructions.getD []
          things_to_avoid := cd.things_to_avoid.getD []
          when_to_see_vet := cd.when_to_see_vet.getD ""
          emergency_indicators := cd.emergency_indicators.getD []
          monitoring_guidance := cd.monitoring_guidance.getD []
          supportive_message := cd.supportive_message.getD "" } ∧
      r.red_flags = sd.red_flags.getD [] ∧
      r.vision_analysis =
        (if vd.has_images.getD false then
          some
            { visual_findings := vd.visual_findings.getD []
              wound_detected := vd.wound_detected.getD false
              swelling_detected := vd.swelling_detected.getD false
              skin_issues_detected := vd.skin_issues_detected.getD false
              eye_issues_detected := vd.eye_issues_detected.getD false }
         else none) ∧
      (vision = none → r.vision_analysis = none) := by
  refine ⟨rfl, rfl, rfl, rfl, rfl, rfl, rfl, rfl, ?_⟩
  rintro rfl
  rfl

/-- C10 witness: the amended round-trip at a concrete input with no vision
output, exercising the omitted-vision-section implication. -/
theorem C10_report_round_trip_amended_witness :
    (build_final_report "2024-01-01T00:00:00Z" {} none {} {} {}).meta =
        { version := "v1", generated_at := "2024-01-01T00:00:00Z" } ∧
      (build_final_report "2024-01-01T00:00:00Z" {} none {} {}
        {}).vision_analysis = none := by
  have h := C10_report_round_trip_amended "2024-01-01T00:00:00Z" {} none {} {} {}
  exact ⟨h.1, h.2.2.2.2.2.2.2.2 rfl⟩

end PetcareAdvisor
